import Mathlib

/-!
Shallow embedding of the water-monitoring application
(`src/app/water-monitoring.py` and `src/app/config.py`).

Python floats are modelled as rationals (`ℚ`): the program only adds,
subtracts and compares them for equality with `0.0`, which is exact on
the inputs of interest.  Python `None` is modelled by `Option.none`.
Python exceptions are modelled by an `Except` result; the exception
classes that occur in the two source files are the constructors of
`PyExc`.  Date/time arithmetic is modelled in whole minutes, and a
`tzinfo` object is modelled by its fixed UTC offset in minutes (DST
transitions are abstracted away; none of the claims depend on them).
-/

namespace WaterMonitoring

/-- The exception classes raised or caught in the two source files:
`ConnectionError` (built-in, raised explicitly), `influxdb.exceptions.InfluxDBServerError`,
`IndexError` (from `list(iresponse)[0]` on an empty generator), `TypeError`
(from `None - None` and from `RoomsConfig(**config)` on a non-mapping),
`ValueError` (bad config suffix), a YAML parse error, a pydantic
`ValidationError`, and a stand-in for any other `Exception` subclass. -/
inductive PyExc where
  | connectionError
  | influxServerError
  | indexError
  | typeError
  | valueError (msg : String)
  | yamlError
  | validationError (msg : String)
  | otherError
  deriving DecidableEq, Repr

/-- A timezone-aware `datetime`: the instant as minutes since the epoch in
UTC, together with the UTC offset (in minutes) of the attached `tzinfo`. -/
structure AwareDT where
  utcMinutes : ℤ
  tzOffset : ℤ
  deriving DecidableEq, Repr

/-- `datetime.combine(date, time)`: a naive wall-clock instant, in minutes
(`date` counts days, `time` counts minutes within the day). -/
def datetime_combine (date : ℤ) (time : ℤ) : ℤ :=
  date * 1440 + time

/-- `naive.astimezone(tz)` (line 121): Python interprets a naive datetime in
the process's *system* local timezone (offset `sysOff`) to obtain the
instant, then represents that instant with the target `tzinfo` attached. -/
def astimezone (sysOff : ℤ) (naive : ℤ) (tzOff : ℤ) : AwareDT :=
  ⟨naive - sysOff, tzOff⟩

/-- Modelled from the spec: "Combine `date` and `time` into a naive local
instant, then attach the configured deployment timezone" — i.e. the naive
wall-clock is *interpreted in* the configured zone (pytz `localize`).
This definition follows the spec's words and is compared against the
source's `astimezone` behaviour. -/
def spec_localize (tzOff : ℤ) (naive : ℤ) : AwareDT :=
  ⟨naive - tzOff, tzOff⟩

/-- Python `x or y` for an environment lookup result (line 34-39):
`None` and the empty string are falsy. -/
def pyOrStr (a : Option String) (b : String) : String :=
  match a with
  | some s => if s = "" then b else s
  | none => b

/-- Line 39: `TIMEZONE = os.getenv('TIMEZONE') or 'Europe/Berlin'`. -/
def TIMEZONE (env : Option String) : String :=
  pyOrStr env "Europe/Berlin"

/-- Python `bool(...)` on an `os.getenv` result: `None` and `""` are falsy,
every non-empty string is truthy. -/
def pyBool : Option String → Bool
  | none => false
  | some s => !(s = "")

/-- Line 40: `DEBUG = bool(os.getenv('DEBUG')) or False`. -/
def DEBUG (env : Option String) : Bool :=
  pyBool env || false

/-- The `fields` dict of a point (line 128): exactly the two keys
`"hot"` and `"cold"`; a `none` value models Python `None`, which the
InfluxDB client drops at serialization (the field is absent from the
stored point). -/
structure InfluxFields where
  hot : Option ℚ
  cold : Option ℚ
  deriving DecidableEq, Repr

/-- One element of `self.data` (lines 126-129). -/
structure InfluxPoint where
  measurement : String
  time : AwareDT
  fields : InfluxFields
  deriving DecidableEq, Repr

/-- The state built by `WaterReading.__init__`: `self.data`, a singleton
list of points. -/
structure WaterReading where
  data : List InfluxPoint
  deriving DecidableEq, Repr

/-- `WaterReading.__init__` (lines 107-129): combine date and time, call
`astimezone` with `timezone(TIMEZONE)` (offset `tzOff`; `sysOff` is the
system zone's offset), turn an exact `0.0` into `None` for each of `hot`
and `cold`, and build the single point.  Note `None == 0.0` is `False` in
Python, so an absent input stays absent. -/
def WaterReading.init (sysOff tzOff : ℤ) (date time : ℤ) (room : String)
    (hot cold : Option ℚ) : WaterReading :=
  let isodate := astimezone sysOff (datetime_combine date time) tzOff
  let hot := if hot = some 0 then none else hot
  let cold := if cold = some 0 then none else cold
  ⟨[⟨room, isodate, ⟨hot, cold⟩⟩]⟩

/-- What `WaterReading.display` (lines 131-138) emits: `st.info("Data logged.")`,
and when `DEBUG` is truthy also `st.write` of the saved values. -/
structure DisplayOutput where
  info : String
  debugData : Option (List InfluxPoint)
  deriving DecidableEq, Repr

/-- `WaterReading.display` (lines 131-138). -/
def WaterReading.display (r : WaterReading) (debug : Bool) : DisplayOutput :=
  ⟨"Data logged.", if debug then some r.data else none⟩

/-- The behaviour of `client.write_points(self.data)` at a given call:
it returns a boolean acknowledgement, raises `InfluxDBServerError`
(server-side timeout), or raises some other `Exception` subclass. -/
inductive ClientWrite where
  | ack (b : Bool)
  | raiseServer
  | raiseOther
  deriving DecidableEq, Repr

/-- The `try` body of `write_to_database` (lines 155-161): write the
points; if the response is falsy, raise `ConnectionError`; otherwise call
`self.display()`. -/
def write_body (r : WaterReading) (debug : Bool) (w : ClientWrite) :
    Except PyExc DisplayOutput :=
  match w with
  | .ack b => if b then .ok (r.display debug) else .error .connectionError
  | .raiseServer => .error .influxServerError
  | .raiseOther => .error .otherError

/-- The observable outcome of `write_to_database`: either the success
display was shown, or a failure was logged. -/
inductive WriterOutcome where
  | displayed (d : DisplayOutput)
  | logged (e : PyExc)
  deriving DecidableEq, Repr

/-- `WaterReading.write_to_database` (lines 140-167): the `try` body
wrapped in the three `except` clauses — `ConnectionError`,
`InfluxDBServerError`, and the catch-all `Exception` — each of which logs
and returns normally. -/
def write_to_database (r : WaterReading) (debug : Bool) (w : ClientWrite) :
    Except PyExc WriterOutcome :=
  match write_body r debug w with
  | .ok d => .ok (.displayed d)
  | .error .connectionError => .ok (.logged .connectionError)
  | .error .influxServerError => .ok (.logged .influxServerError)
  | .error e => .ok (.logged e)

/-- The behaviour of `client.query(...).get_points()` at a given call:
a generator over the points (its `'last'` values listed in order), or a
raised `InfluxDBServerError`, or some other raised `Exception`. -/
inductive ClientQuery where
  | points (ps : List ℚ)
  | raiseServer
  | raiseOther
  deriving DecidableEq, Repr

/-- Truthiness of the `get_points()` generator object: a Python generator
is always truthy, regardless of whether it will yield any items, so the
`if not iresponse` check on line 67 can never fire. -/
def generator_truthy (_ps : List ℚ) : Bool :=
  true

/-- The `try` body of `query_last` (lines 63-70): query, test the
generator's truthiness (always true), then `list(iresponse)[0]['last']`,
which raises `IndexError` when the store returned no points. -/
def query_body (c : ClientQuery) : Except PyExc ℚ :=
  match c with
  | .points ps =>
      if !(generator_truthy ps) then .error .connectionError
      else
        match ps with
        | [] => .error .indexError
        | p :: _ => .ok p
  | .raiseServer => .error .influxServerError
  | .raiseOther => .error .otherError

/-- `query_last` (lines 57-76): the `try` body wrapped in the three
`except` clauses, each of which logs; the function then falls off its end
and returns Python `None` (modelled `none`). -/
def query_last (c : ClientQuery) : Except PyExc (Option ℚ) :=
  match query_body c with
  | .ok v => .ok (some v)
  | .error .connectionError => .ok none
  | .error .influxServerError => .ok none
  | .error _ => .ok none

/-- The value `query_last` returns (it never raises; see
`query_last_total`). -/
def query_last_val (c : ClientQuery) : Option ℚ :=
  match c with
  | .points [] => none
  | .points (p :: _) => some p
  | .raiseServer => none
  | .raiseOther => none

/-- Line 23: `ROOMS = ['bathroom', 'kitchen']`. -/
def ROOMS : List String :=
  ["bathroom", "kitchen"]

/-- `get_latest_readings` (lines 79-98): the dict comprehension
`{room: {temp: query_last(client, room, temp) for temp in ['hot', 'cold']}
for room in ['bathroom', 'kitchen']}`, with dicts modelled as ordered
association lists.  `q room temp` is the store's behaviour at that call. -/
def get_latest_readings (q : String → String → ClientQuery) :
    Except PyExc (List (String × List (String × Option ℚ))) :=
  (["bathroom", "kitchen"] : List String).mapM (fun room =>
    ((["hot", "cold"] : List String).mapM (fun temp =>
        (query_last (q room temp)).map (fun v => (temp, v)))).map
      (fun ms => (room, ms)))

/-- Lookup of `table[room][temp]` in the latest-readings table. -/
def tableGet (t : List (String × List (String × Option ℚ)))
    (room temp : String) : Option (Option ℚ) :=
  (t.lookup room).bind (fun ms => ms.lookup temp)

/-- Python subtraction applied to values that may be `None`
(`None - x` and `x - None` raise `TypeError`). -/
def pySub : Option ℚ → Option ℚ → Except PyExc ℚ
  | some a, some b => .ok (a - b)
  | _, _ => .error .typeError

/-- What one `st.metric` call of the render loop shows. -/
structure MetricDisplay where
  value : Option ℚ
  delta : ℚ
  deriving DecidableEq, Repr

/-- One meter column of the main render loop (lines 215-219 and 229-233):
`hot = latest_readings[room][temp]` followed by
`st.metric(value=hot, delta=hot - latest_readings[room][temp])`.
Both operands of the subtraction are the fetched value; the new widget
value is only read afterwards (line 221) and takes no part in the delta. -/
def render_metric (fetched : Option ℚ) : Except PyExc MetricDisplay :=
  match pySub fetched fetched with
  | .ok d => .ok ⟨fetched, d⟩
  | .error e => .error e

/-! Embedding of `src/app/config.py`.

A YAML document is modelled by `YVal`; dicts are ordered association
lists.  The three pydantic models keep the source's field types:
`MeterConfig {id: int, name: str, offset: float = 0}`,
`RoomConfig {name: StrictStr, meters: List[MeterConfig]}`,
`RoomsConfig {rooms: List[RoomConfig]}`.  No validator method is defined
in the source, so only pydantic's per-field type checks run.  Pydantic
v1 coercion is modelled for the shapes a YAML load can produce: `int`
accepts ints, bools and floats (truncating toward zero, Python `int()`)
and integer strings; `float` accepts floats, ints, bools and integer
strings (decimal-string parsing is abstracted to integer strings; no
claim depends on it); `str` accepts strings and renders numbers;
`StrictStr` accepts only strings.  Missing required fields and
wrongly-typed values are pydantic `ValidationError`s. -/

/-- A parsed structured-data (YAML) value. -/
inductive YVal where
  | str (s : String)
  | int (n : ℤ)
  | float (q : ℚ)
  | bool (b : Bool)
  | list (xs : List YVal)
  | map (kvs : List (String × YVal))
  | null

/-- Pydantic v1 validation of an `int` field. -/
def pyInt : YVal → Except String ℤ
  | .int n => .ok n
  | .bool b => .ok (if b then 1 else 0)
  | .float q => .ok (Int.tdiv q.num (q.den : ℤ))
  | .str s =>
      match s.toInt? with
      | some n => .ok n
      | none => .error "value is not a valid integer"
  | _ => .error "value is not a valid integer"

/-- Pydantic v1 validation of a `float` field. -/
def pyFloat : YVal → Except String ℚ
  | .float q => .ok q
  | .int n => .ok (n : ℚ)
  | .bool b => .ok (if b then 1 else 0)
  | .str s =>
      match s.toInt? with
      | some n => .ok (n : ℚ)
      | none => .error "value is not a valid float"
  | _ => .error "value is not a valid float"

/-- Pydantic v1 validation of a `str` field (coercing numbers). -/
def pyStr : YVal → Except String String
  | .str s => .ok s
  | .int n => .ok (toString n)
  | .float q => .ok (toString q)
  | _ => .error "str type expected"

/-- Pydantic v1 validation of a `StrictStr` field. -/
def pyStrictStr : YVal → Except String String
  | .str s => .ok s
  | _ => .error "str type expected"

/-- `MeterConfig` (config.py lines 12-15). -/
structure MeterConfig where
  id : ℤ
  name : String
  offset : ℚ
  deriving DecidableEq, Repr

/-- Pydantic validation of one `MeterConfig` from a YAML value:
`id: int` and `name: str` are required, `offset: float` defaults to 0. -/
def MeterConfig.validate (v : YVal) : Except String MeterConfig := do
  match v with
  | .map kvs =>
      let idv ←
        match kvs.lookup "id" with
        | some x => pyInt x
        | none => .error "id: field required"
      let namev ←
        match kvs.lookup "name" with
        | some x => pyStr x
        | none => .error "name: field required"
      let offsetv ←
        match kvs.lookup "offset" with
        | some x => pyFloat x
        | none => .ok 0
      .ok ⟨idv, namev, offsetv⟩
  | _ => .error "value is not a valid dict"

/-- `RoomConfig` (config.py lines 18-20). -/
structure RoomConfig where
  name : String
  meters : List MeterConfig
  deriving DecidableEq, Repr

/-- Pydantic validation of one `RoomConfig`: `name: StrictStr` and
`meters: List[MeterConfig]` are both required; every meter entry is
validated in order. -/
def RoomConfig.validate (v : YVal) : Except String RoomConfig := do
  match v with
  | .map kvs =>
      let namev ←
        match kvs.lookup "name" with
        | some x => pyStrictStr x
        | none => .error "name: field required"
      let metersv ←
        match kvs.lookup "meters" with
        | some (.list xs) => xs.mapM MeterConfig.validate
        | some _ => .error "meters: value is not a valid list"
        | none => .error "meters: field required"
      .ok ⟨namev, metersv⟩
  | _ => .error "value is not a valid dict"

/-- `RoomsConfig` (config.py lines 23-24). -/
structure RoomsConfig where
  rooms : List RoomConfig
  deriving DecidableEq, Repr

/-- Pydantic validation of the top-level `RoomsConfig`: `rooms:
List[RoomConfig]` is required. -/
def RoomsConfig.validate (v : YVal) : Except String RoomsConfig := do
  match v with
  | .map kvs =>
      let roomsv ←
        match kvs.lookup "rooms" with
        | some (.list xs) => xs.mapM RoomConfig.validate
        | some _ => .error "rooms: value is not a valid list"
        | none => .error "rooms: field required"
      .ok ⟨roomsv⟩
  | _ => .error "value is not a valid dict"

/-- `get_config` (config.py lines 27-46): reject a suffix other than
`.yaml`/`.yml` with `ValueError`; `yaml.safe_load` failure is a parse
error; `RoomsConfig(**config)` requires a mapping (otherwise `TypeError`)
and then runs pydantic validation (`ValidationError` on failure).
`parsed` is the result of loading the file's text. -/
def get_config (suffix : String) (parsed : Except Unit YVal) :
    Except PyExc RoomsConfig :=
  if suffix ∈ ([".yaml", ".yml"] : List String) then
    match parsed with
    | .error _ => .error .yamlError
    | .ok (.map kvs) =>
        match RoomsConfig.validate (.map kvs) with
        | .ok c => .ok c
        | .error m => .error (.validationError m)
    | .ok _ => .error .typeError
  else .error (.valueError "Config file must be YAML with suffix .yaml or .yml")

/-! Helper lemmas shared between claim theorems. -/

/-- `query_last` always returns normally, with the value `query_last_val`. -/
theorem query_last_total (c : ClientQuery) :
    query_last c = .ok (query_last_val c) := by
  cases c with
  | points ps => cases ps <;> rfl
  | raiseServer => rfl
  | raiseOther => rfl

/-- The table `get_latest_readings` assembles: both rooms in order, each
with `hot` and `cold` in order, holding the respective `query_last` value. -/
def latest_table (q : String → String → ClientQuery) :
    List (String × List (String × Option ℚ)) :=
  [("bathroom", [("hot", query_last_val (q "bathroom" "hot")),
                 ("cold", query_last_val (q "bathroom" "cold"))]),
   ("kitchen", [("hot", query_last_val (q "kitchen" "hot")),
                ("cold", query_last_val (q "kitchen" "cold"))])]

/-- `get_latest_readings` succeeds and returns `latest_table`. -/
theorem get_latest_readings_eq (q : String → String → ClientQuery) :
    get_latest_readings q = .ok (latest_table q) := by
  simp only [get_latest_readings, query_last_total]
  rfl

/-- Lookup in a two-entry association list. -/
theorem lookup_pair {β : Type} (a k₁ k₂ : String) (v₁ v₂ : β) :
    List.lookup a [(k₁, v₁), (k₂, v₂)] =
      if a = k₁ then some v₁ else if a = k₂ then some v₂ else none := by
  by_cases h₁ : a = k₁
  · subst h₁; simp [List.lookup]
  · have e₁ : (a == k₁) = false := by simp [h₁]
    by_cases h₂ : a = k₂
    · subst h₂; simp [List.lookup, e₁, h₁]
    · have e₂ : (a == k₂) = false := by simp [h₂]
      simp [List.lookup, e₁, e₂, h₁, h₂]

/-- Closed form of `tableGet` on the assembled table. -/
theorem tableGet_latest (q : String → String → ClientQuery) (r t : String) :
    tableGet (latest_table q) r t =
      if r ∈ ROOMS ∧ t ∈ (["hot", "cold"] : List String) then
        some (query_last_val (q r t))
      else none := by
  by_cases hr1 : r = "bathroom"
  · subst hr1
    have e : tableGet (latest_table q) "bathroom" t =
        List.lookup t [("hot", query_last_val (q "bathroom" "hot")),
                       ("cold", query_last_val (q "bathroom" "cold"))] := rfl
    rw [e, lookup_pair]
    by_cases ht1 : t = "hot"
    · subst ht1; simp [ROOMS]
    · by_cases ht2 : t = "cold"
      · subst ht2; simp [ROOMS]
      · simp [ROOMS, ht1, ht2]
  · by_cases hr2 : r = "kitchen"
    · subst hr2
      have e : tableGet (latest_table q) "kitchen" t =
          List.lookup t [("hot", query_last_val (q "kitchen" "hot")),
                         ("cold", query_last_val (q "kitchen" "cold"))] := rfl
      rw [e, lookup_pair]
      by_cases ht1 : t = "hot"
      · subst ht1; simp [ROOMS, hr1]
      · by_cases ht2 : t = "cold"
        · subst ht2; simp [ROOMS, hr1]
        · simp [ROOMS, hr1, ht1, ht2]
    · have e : tableGet (latest_table q) r t =
          (List.lookup r
            [("bathroom",
               [("hot", query_last_val (q "bathroom" "hot")),
                ("cold", query_last_val (q "bathroom" "cold"))]),
             ("kitchen",
               [("hot", query_last_val (q "kitchen" "hot")),
                ("cold", query_last_val (q "kitchen" "cold"))])]).bind
            (fun ms => List.lookup t ms) := rfl
      rw [e, lookup_pair]
      simp [ROOMS, hr1, hr2]

/-! Claim theorems. -/

/-- Claim C1: in the record built by `WaterReading.__init__`, a submitted
meter value that is exactly zero is stored as absent (`None`, dropped at
serialization), and any non-zero submitted value is stored present and
unchanged. -/
theorem zero_stored_absent (sysOff tzOff date time : ℤ) (room : String)
    (vh vc : ℚ) :
    ((WaterReading.init sysOff tzOff date time room (some vh) (some vc)).data.map
        (fun p => p.fields)) =
      [⟨if vh = 0 then none else some vh, if vc = 0 then none else some vc⟩] := by
  by_cases h1 : vh = 0 <;> by_cases h2 : vc = 0 <;>
    simp [WaterReading.init, h1, h2]

/-- Claim C2 (counterexample): with a configured offset of `1.5` and a raw
entered value of `0.0`, the record stores the `hot` field absent, not
present with value `0.0 + 1.5`: `WaterReading.__init__` never consults
`MeterConfig.offset`. -/
theorem offset_ignored_cex :
    ((WaterReading.init 0 60 18993 720 "kitchen" (some 0) none).data.map
        (fun p => p.fields.hot)) = [none] ∧
    ((WaterReading.init 0 60 18993 720 "kitchen" (some 0) none).data.map
        (fun p => p.fields.hot)) ≠
      [some ((0 : ℚ) + (MeterConfig.mk 1 "hot" (3 / 2)).offset)] := by
  refine ⟨rfl, ?_⟩
  simp [WaterReading.init]

/-- Claim C2 (amended): the submit pipeline applies no configured offset;
the value stored for a meter is the raw entered value itself, so with any
configured offset (e.g. `1.5`) and raw value `0.0` the field is absent,
not present with `raw + offset`. -/
theorem offset_not_applied (m : MeterConfig) (sysOff tzOff date time : ℤ)
    (room : String) (v : ℚ) (cold : Option ℚ) :
    ((WaterReading.init sysOff tzOff date time room (some v) cold).data.map
        (fun p => p.fields.hot)) = [if v = 0 then none else some v] ∧
    (v = 0 →
      ((WaterReading.init sysOff tzOff date time room (some v) cold).data.map
          (fun p => p.fields.hot)) ≠ [some (v + m.offset)]) := by
  constructor
  · by_cases h : v = 0 <;> simp [WaterReading.init, h]
  · intro h
    simp [WaterReading.init, h]

/-- Claim C2 witness: instance of the amended claim at offset `3/2`,
raw value `0`. -/
theorem offset_not_applied_witness :
    ((WaterReading.init 0 60 18993 720 "kitchen" (some 0) none).data.map
        (fun p => p.fields.hot)) ≠
      [some ((0 : ℚ) + (MeterConfig.mk 1 "hot" (3 / 2)).offset)] :=
  (offset_not_applied (MeterConfig.mk 1 "hot" (3 / 2)) 0 60 18993 720
    "kitchen" 0 none).2 rfl

/-- Claim C3: `write_to_database` returns normally on every client
behaviour — a rejected write (falsy acknowledgement), a server timeout,
and any other client exception are each caught and logged; on a truthy
acknowledgement the success display is shown. -/
theorem writer_never_raises (r : WaterReading) (debug : Bool)
    (w : ClientWrite) :
    (∃ o, write_to_database r debug w = .ok o) ∧
    (w = .ack false →
      write_to_database r debug w = .ok (.logged .connectionError)) ∧
    (w = .raiseServer →
      write_to_database r debug w = .ok (.logged .influxServerError)) ∧
    (w = .raiseOther →
      write_to_database r debug w = .ok (.logged .otherError)) ∧
    (w = .ack true →
      write_to_database r debug w = .ok (.displayed (r.display debug))) := by
  refine ⟨?_, fun h => ?_, fun h => ?_, fun h => ?_, fun h => ?_⟩
  · cases w with
    | ack b =>
        cases b
        · exact ⟨.logged .connectionError, rfl⟩
        · exact ⟨.displayed (r.display debug), rfl⟩
    | raiseServer => exact ⟨.logged .influxServerError, rfl⟩
    | raiseOther => exact ⟨.logged .otherError, rfl⟩
  · subst h; rfl
  · subst h; rfl
  · subst h; rfl
  · subst h; rfl

/-- Claim C3 witness: a rejected write on a concrete record is logged and
control returns. -/
theorem writer_never_raises_witness :
    write_to_database (WaterReading.init 0 60 18993 720 "kitchen" (some 5) none)
        false (.ack false) = .ok (.logged .connectionError) :=
  (writer_never_raises (WaterReading.init 0 60 18993 720 "kitchen" (some 5) none)
    false (.ack false)).2.1 rfl

/-- Claim C4: `query_last` always returns normally; when the store returns
no points, times out server-side, or raises any other exception, it
yields Python `None` — a non-numeric unknown marker distinct from `0`. -/
theorem query_last_no_raise_unknown (c : ClientQuery) :
    query_last c = .ok (query_last_val c) ∧
    ((c = .points [] ∨ c = .raiseServer ∨ c = .raiseOther) →
      query_last c = .ok none ∧ query_last_val c ≠ some 0) := by
  refine ⟨query_last_total c, ?_⟩
  rintro (h | h | h) <;> subst h <;> exact ⟨rfl, by simp [query_last_val]⟩

/-- Claim C4 witness: the no-points case yields the unknown marker. -/
theorem query_last_no_raise_unknown_witness :
    query_last (.points []) = .ok none ∧
      query_last_val (.points []) ≠ some 0 :=
  (query_last_no_raise_unknown (.points [])).2 (Or.inl rfl)

/-- Claim C5: when the store read returned no points the fetched value is
`None`, and the render loop's `st.metric` delta then evaluates
`None - None` unguarded, raising `TypeError` — the subtraction is not
guarded, contrary to the claim. -/
theorem delta_unknown_type_error :
    query_last_val (.points []) = none ∧
    render_metric (query_last_val (.points [])) = .error .typeError :=
  ⟨rfl, rfl⟩

/-- Claim C6 (counterexample): with fetched last value `5` and newly
entered widget value `7`, the code displays delta `0`, not
`new_widget_value - fetched_last_value = 2`. -/
theorem delta_not_new_minus_fetched_cex :
    render_metric (some 5) = .ok ⟨some 5, 0⟩ ∧ (0 : ℚ) ≠ 7 - 5 := by
  constructor
  · simp [render_metric, pySub]
  · norm_num

/-- Claim C6 (amended): the delta shown by `st.metric` is
`fetched - fetched`, i.e. `0` for every numeric fetched value; the newly
entered widget value is read only after the metric is rendered and takes
no part in the delta. -/
theorem delta_always_zero (v : ℚ) :
    render_metric (some v) = .ok ⟨some v, 0⟩ := by
  simp [render_metric, pySub]

/-- Claim C7 (counterexample): with the system timezone at UTC (offset 0)
and the configured timezone at offset +60 minutes, the stored timestamp
for naive wall-clock minute 720 is the instant 720 (the system-zone
interpretation), not the configured-zone interpretation, instant 660. -/
theorem astimezone_not_configured_zone_cex :
    ((WaterReading.init 0 60 0 720 "kitchen" none none).data.map
        (fun p => p.time)) = [astimezone 0 (datetime_combine 0 720) 60] ∧
    astimezone 0 (datetime_combine 0 720) 60 ≠
      spec_localize 60 (datetime_combine 0 720) := by
  refine ⟨rfl, ?_⟩
  decide

/-- Claim C7 (amended): `WaterReading.__init__` combines date and time
into a naive instant and passes it to `astimezone`, which interprets it
in the process's *system* timezone and re-expresses that instant with the
configured timezone attached; the result agrees with the spec's
configured-zone interpretation exactly when the system offset equals the
configured offset. -/
theorem timestamp_system_zone (sysOff tzOff date time : ℤ) (room : String)
    (hot cold : Option ℚ) :
    ((WaterReading.init sysOff tzOff date time room hot cold).data.map
        (fun p => p.time)) =
      [astimezone sysOff (datetime_combine date time) tzOff] ∧
    (astimezone sysOff (datetime_combine date time) tzOff).utcMinutes =
      datetime_combine date time - sysOff ∧
    (astimezone sysOff (datetime_combine date time) tzOff).tzOffset = tzOff ∧
    (sysOff = tzOff →
      astimezone sysOff (datetime_combine date time) tzOff =
        spec_localize tzOff (datetime_combine date time)) := by
  refine ⟨by simp [WaterReading.init], rfl, rfl, ?_⟩
  intro h
  simp [astimezone, spec_localize, h]

/-- Claim C7 witness: when the system zone equals the configured zone the
two interpretations coincide. -/
theorem timestamp_system_zone_witness :
    astimezone 60 (datetime_combine 0 720) 60 =
      spec_localize 60 (datetime_combine 0 720) :=
  (timestamp_system_zone 60 60 0 720 "kitchen" none none).2.2.2 rfl

/-- Claim C10: the debug-display flag is off exactly when the `DEBUG`
environment variable is unset or empty; any non-empty value — including
`"0"`, `"false"` and `"off"` — turns on the debug display of the written
field values. -/
theorem debug_flag_any_nonempty :
    DEBUG none = false ∧ DEBUG (some "") = false ∧
    DEBUG (some "0") = true ∧ DEBUG (some "false") = true ∧
    DEBUG (some "off") = true ∧
    (∀ (r : WaterReading) (env : Option String),
      (r.display (DEBUG env)).debugData = some r.data ↔ DEBUG env = true) ∧
    (∀ env : Option String, DEBUG env = true ↔ ∃ s, env = some s ∧ s ≠ "") ∧
    (∀ s : String, s ≠ "" → DEBUG (some s) = true) := by
  refine ⟨rfl, rfl, rfl, rfl, rfl, ?_, ?_, ?_⟩
  · intro r env
    cases h : DEBUG env <;> simp [WaterReading.display, h]
  · intro env
    cases env with
    | none => simp [DEBUG, pyBool]
    | some s =>
        by_cases h : s = "" <;> simp [DEBUG, pyBool, h]
  · intro s h
    simp [DEBUG, pyBool, h]

/-- Claim C10 witness: a non-empty value enables the flag. -/
theorem debug_flag_any_nonempty_witness : DEBUG (some "x") = true :=
  debug_flag_any_nonempty.2.2.2.2.2.2.2 "x" (by simp)

/-- Claim C9: `get_latest_readings` always succeeds; the table's keys are
exactly `ROOMS` in order, each room maps exactly to `hot` then `cold`,
and when two store behaviours differ only at one `(room, meter)` pair the
two tables agree at every other entry (a failure for one meter leaves all
other entries present and unchanged). -/
theorem fetch_all_table_shape (q₁ q₂ : String → String → ClientQuery)
    (r₀ t₀ : String)
    (hagree : ∀ r t, ¬(r = r₀ ∧ t = t₀) → q₁ r t = q₂ r t) :
    ∃ t₁ t₂, get_latest_readings q₁ = .ok t₁ ∧
      get_latest_readings q₂ = .ok t₂ ∧
      t₁.map Prod.fst = ROOMS ∧
      (∀ p ∈ t₁, p.2.map Prod.fst = ["hot", "cold"]) ∧
      (∀ r t, ¬(r = r₀ ∧ t = t₀) → tableGet t₁ r t = tableGet t₂ r t) := by
  refine ⟨latest_table q₁, latest_table q₂, get_latest_readings_eq q₁,
    get_latest_readings_eq q₂, rfl, ?_, ?_⟩
  · intro p hp
    simp only [latest_table, List.mem_cons, List.not_mem_nil, or_false] at hp
    rcases hp with rfl | rfl <;> rfl
  · intro r t hrt
    rw [tableGet_latest, tableGet_latest]
    split_ifs with h
    · rw [hagree r t hrt]
    · rfl

/-- Claim C9 witness: behaviours differing only at `("kitchen", "hot")`
(where the second one fails) yield tables agreeing everywhere else. -/
theorem fetch_all_table_shape_witness :
    ∃ t₁ t₂,
      get_latest_readings (fun _ _ => .points [5]) = .ok t₁ ∧
      get_latest_readings
          (fun r t => if r = "kitchen" ∧ t = "hot" then .points []
            else .points [5]) = .ok t₂ ∧
      t₁.map Prod.fst = ROOMS ∧
      (∀ p ∈ t₁, p.2.map Prod.fst = ["hot", "cold"]) ∧
      (∀ r t, ¬(r = "kitchen" ∧ t = "hot") →
        tableGet t₁ r t = tableGet t₂ r t) :=
  fetch_all_table_shape (fun _ _ => .points [5])
    (fun r t => if r = "kitchen" ∧ t = "hot" then .points [] else .points [5])
    "kitchen" "hot" (fun r t h => by simp [h])

/-- Claim C8 (counterexample): a topology whose `rooms` sequence is empty
is accepted by `get_config`, contrary to the claim that it is rejected. -/
theorem empty_rooms_accepted_cex :
    get_config ".yaml" (.ok (.map [("rooms", .list [])])) = .ok ⟨[]⟩ := by
  rfl

/-- Claim C8 (amended): `get_config` fails on a non-YAML suffix, an
unparseable source, a non-mapping document, and a missing or wrongly-typed
required field (in particular a room omitting `meters`); but it enforces
no uniqueness constraint and accepts empty `rooms` and empty `meters`
sequences — duplicate meter ids/names within a room and duplicate room
names pass validation. -/
theorem get_config_validation :
    get_config ".yaml" (.error ()) = .error .yamlError ∧
    get_config ".yaml" (.ok (.str "scalar")) = .error .typeError ∧
    get_config ".yaml"
        (.ok (.map [("rooms", .list [.map [("name", .str "bathroom")]])])) =
      .error (.validationError "meters: field required") ∧
    get_config ".yaml"
        (.ok (.map [("rooms",
          .list [.map [("name", .str "bathroom"), ("meters", .int 3)]])])) =
      .error (.validationError "meters: value is not a valid list") ∧
    get_config ".yaml"
        (.ok (.map [("rooms",
          .list [.map [("name", .str "bathroom"), ("meters", .list [])]])])) =
      .ok ⟨[⟨"bathroom", []⟩]⟩ ∧
    get_config ".yaml"
        (.ok (.map [("rooms",
          .list [.map [("name", .str "bathroom"),
            ("meters", .list
              [.map [("id", .int 1), ("name", .str "hot")],
               .map [("id", .int 1), ("name", .str "hot")]])]])])) =
      .ok ⟨[⟨"bathroom", [⟨1, "hot", 0⟩, ⟨1, "hot", 0⟩]⟩]⟩ ∧
    get_config ".yaml"
        (.ok (.map [("rooms",
          .list [.map [("name", .str "bathroom"), ("meters", .list [])],
                 .map [("name", .str "bathroom"), ("meters", .list [])]])])) =
      .ok ⟨[⟨"bathroom", []⟩, ⟨"bathroom", []⟩]⟩ ∧
    (∀ (suffix : String) (parsed : Except Unit YVal),
      suffix ∉ ([".yaml", ".yml"] : List String) →
      get_config suffix parsed =
        .error (.valueError
          "Config file must be YAML with suffix .yaml or .yml")) := by
  refine ⟨rfl, rfl, rfl, rfl, rfl, rfl, rfl, ?_⟩
  intro suffix parsed h
  simp [get_config, h]

/-- Claim C8 witness: a `.json` suffix is rejected with the `ValueError`. -/
theorem get_config_validation_witness :
    get_config ".json" (.error ()) =
      .error (.valueError
        "Config file must be YAML with suffix .yaml or .yml") :=
  get_config_validation.2.2.2.2.2.2.2 ".json" (.error ()) (by simp)

end WaterMonitoring
